import Mathlib

/-!
Verification development for the AzureDevOps-MCP adapter.

The definitions below are a shallow embedding of the TypeScript sources:
`src/config.ts` (environment-based configuration resolution, allowed-tools
filtering) and the service/utility modules (`Logger.logConnectionFailure`,
`validatePullRequestRepository`, `AzureDevOpsService` constructor,
`GitService` pull-request operations).  JavaScript `string | undefined`
environment values are modelled as `Option String`, with JavaScript
truthiness made explicit (`none` and `some ""` are falsy).  Thrown
exceptions are modelled with `Except String`.
-/

/-- JavaScript truthiness of a `string | undefined` value:
`undefined` and the empty string are falsy. -/
def truthyStr : Option String → Bool
  | none => false
  | some s => s != ""

/-- JavaScript truthiness of a `number | undefined` value:
`undefined` and `0` are falsy. -/
def truthyNum : Option Int → Bool
  | none => false
  | some n => n != 0

/-- The process environment variables read by `config.ts` and the service
layer.  Each is `string | undefined` in Node, hence `Option String`. -/
structure Env where
  AZURE_DEVOPS_ORG_URL : Option String := none
  AZURE_DEVOPS_PROJECT : Option String := none
  AZURE_DEVOPS_PERSONAL_ACCESS_TOKEN : Option String := none
  AZURE_DEVOPS_IS_ON_PREMISES : Option String := none
  AZURE_DEVOPS_COLLECTION : Option String := none
  AZURE_DEVOPS_API_VERSION : Option String := none
  AZURE_DEVOPS_AUTH_TYPE : Option String := none
  AZURE_DEVOPS_USERNAME : Option String := none
  AZURE_DEVOPS_PASSWORD : Option String := none
  AZURE_DEVOPS_DOMAIN : Option String := none
  ALLOWED_TOOLS : Option String := none
deriving DecidableEq

/-- The `auth` member of `AzureDevOpsConfig` (tagged by its `type` string,
as the TypeScript union is).  The service constructor re-checks the fields
with JavaScript truthiness, so `username`/`password` stay optional here. -/
structure AuthConfig where
  type : String
  username : Option String := none
  password : Option String := none
  domain : Option String := none
deriving DecidableEq

/-- The resolved `AzureDevOpsConfig` value produced by `getAzureDevOpsConfig`
and consumed by the `AzureDevOpsService` constructor.  The optional
`entraAuthHandler` object is modelled by its presence only. -/
structure AzureDevOpsConfig where
  orgUrl : String
  project : String
  personalAccessToken : String
  isOnPremises : Bool
  collection : Option String := none
  apiVersion : Option String := none
  auth : Option AuthConfig := none
  entraAuthHandler : Bool := false
deriving DecidableEq

/-- `config.ts` lines 141-144: the free-text auth-type input
(`process.env.AZURE_DEVOPS_AUTH_TYPE || 'pat'`) is kept only when it is one
of the four recognized values, otherwise it becomes `pat`. -/
def normalizeAuthType (raw : Option String) : String :=
  let authTypeInput := match raw with
    | none => "pat"
    | some s => if s = "" then "pat" else s
  if authTypeInput = "ntlm" ∨ authTypeInput = "basic" ∨
      authTypeInput = "pat" ∨ authTypeInput = "entra" then
    authTypeInput
  else
    "pat"

/-- `config.ts` lines 128-130: the list of missing required variables, in
the order the code pushes them. -/
def missingConfigVars (env : Env) : List String :=
  (if truthyStr env.AZURE_DEVOPS_ORG_URL then [] else ["AZURE_DEVOPS_ORG_URL"]) ++
  (if truthyStr env.AZURE_DEVOPS_PROJECT then [] else ["AZURE_DEVOPS_PROJECT"])

/-- The message of `config.ts` line 137. -/
def missingConfigMessage (vars : List String) : String :=
  "Missing required Azure DevOps configuration: " ++ String.intercalate ", " vars ++
    ". Please check .env file or environment variables."

/-- `config.ts` lines 146-194 after the auth type has been normalized:
the decision table over auth kind and hosting mode producing the `auth`
descriptor or throwing. -/
def resolveAuth (env : Env) (authType : String) (personalAccessToken : String)
    (isOnPremises : Bool) : Except String AuthConfig :=
  if authType = "entra" then
    if isOnPremises then
      .error "Azure Identity (DefaultAzureCredential) authentication is not supported for on-premises Azure DevOps."
    else
      .ok { type := "entra" }
  else if isOnPremises then
    if authType = "ntlm" then
      if !truthyStr env.AZURE_DEVOPS_USERNAME || !truthyStr env.AZURE_DEVOPS_PASSWORD then
        .error "NTLM authentication requires username and password."
      else
        .ok { type := "ntlm", username := env.AZURE_DEVOPS_USERNAME,
              password := env.AZURE_DEVOPS_PASSWORD, domain := env.AZURE_DEVOPS_DOMAIN }
    else if authType = "basic" then
      if !truthyStr env.AZURE_DEVOPS_USERNAME || !truthyStr env.AZURE_DEVOPS_PASSWORD then
        .error "Basic authentication requires username and password."
      else
        .ok { type := "basic", username := env.AZURE_DEVOPS_USERNAME,
              password := env.AZURE_DEVOPS_PASSWORD }
    else
      if personalAccessToken = "" then
        .error "PAT authentication requires a personal access token."
      else
        .ok { type := "pat" }
  else
    if authType = "pat" then
      if personalAccessToken = "" then
        .error "PAT authentication requires a personal access token for Azure DevOps cloud unless AZURE_DEVOPS_AUTH_TYPE is set to entra."
      else
        .ok { type := "pat" }
    else
      .error ("Unsupported auth type \"" ++ authType ++ "\" for Azure DevOps cloud. Must be \x27pat\x27 or \x27entra\x27.")

/-- `config.ts` `getAzureDevOpsConfig`, with the normalized auth type passed
explicitly (the source computes it from the same environment; see
`getAzureDevOpsConfig`). -/
def resolveConfigWithAuthType (env : Env) (authType : String) :
    Except String AzureDevOpsConfig :=
  let orgUrl := env.AZURE_DEVOPS_ORG_URL
  let project := env.AZURE_DEVOPS_PROJECT
  let personalAccessToken := env.AZURE_DEVOPS_PERSONAL_ACCESS_TOKEN.getD ""
  let isOnPremises := env.AZURE_DEVOPS_IS_ON_PREMISES = some "true"
  if !truthyStr orgUrl || !truthyStr project then
    .error (missingConfigMessage (missingConfigVars env))
  else
    match resolveAuth env authType personalAccessToken isOnPremises with
    | .error e => .error e
    | .ok auth =>
      .ok { orgUrl := orgUrl.getD "", project := project.getD "",
            personalAccessToken := personalAccessToken,
            isOnPremises := isOnPremises,
            collection := env.AZURE_DEVOPS_COLLECTION,
            apiVersion := env.AZURE_DEVOPS_API_VERSION,
            auth := some auth }

/-- `config.ts` `getAzureDevOpsConfig`: read the environment, validate the
required variables, normalize the auth type and apply the decision table. -/
def getAzureDevOpsConfig (env : Env) : Except String AzureDevOpsConfig :=
  resolveConfigWithAuthType env (normalizeAuthType env.AZURE_DEVOPS_AUTH_TYPE)

/-- JavaScript `s.split(',')` on the character list: cut at every comma,
keeping empty segments (so the empty string splits to one empty segment). -/
def splitCommaAux : List Char → List Char → List String
  | [], acc => [String.mk acc.reverse]
  | c :: rest, acc =>
    if c = ',' then String.mk acc.reverse :: splitCommaAux rest []
    else splitCommaAux rest (c :: acc)

/-- JavaScript `s.split(',')`. -/
def splitComma (s : String) : List String :=
  splitCommaAux s.data []

/-- `config.ts` `getAllowedTools`, parameterized by `ALL_ALLOWED_TOOLS`.
Modelled from the spec: the eight tool-group name lists
(`AIAssistedDevelopmentToolMethods` … `WorkItemToolMethods`) live in
`src/Tools/*.ts`, which are not part of the provided sources, so the
concatenated full tool list is taken as a parameter; the decision logic
itself is from `config.ts` lines 221-226.  The JavaScript `Set` is
modelled as a `Finset`. -/
def getAllowedTools (ALL_ALLOWED_TOOLS : List String) (env : Env) : Finset String :=
  match env.ALLOWED_TOOLS with
  | none => ALL_ALLOWED_TOOLS.toFinset
  | some s =>
    if s = "" then ALL_ALLOWED_TOOLS.toFinset
    else (splitComma s).toFinset

/-- The credential handler selected by the `AzureDevOpsService` constructor
(one SDK handler-constructor per auth kind; Entra reuses the externally
supplied handler). -/
inductive HandlerDesc where
  | entra : HandlerDesc
  | ntlm : String → String → Option String → HandlerDesc
  | basic : String → String → HandlerDesc
  | pat : String → HandlerDesc
deriving DecidableEq

/-- The observable outcome of a successful `AzureDevOpsService` constructor
run: the selected handler, the base URL passed to `new azdev.WebApi`, and
the optional `Accept` header of the request options. -/
structure ServiceHandle where
  authHandler : HandlerDesc
  baseUrl : String
  acceptHeader : Option String := none
deriving DecidableEq

/-- `AzureDevOpsService` constructor lines 247-333: select the credential
handler or throw.  Branch order follows the source: the `entra` tag is
tested first; then `config.isOnPremises && config.auth` guards the
on-premises switch (whose `default` arm falls back to PAT); everything
else — including on-premises with no `auth` member — takes the cloud path. -/
def selectAuthHandler (config : AzureDevOpsConfig) : Except String HandlerDesc :=
  match config.auth with
  | some a =>
    if a.type = "entra" then
      if config.isOnPremises then
        .error "Azure Identity (DefaultAzureCredential) authentication is not supported for on-premises Azure DevOps."
      else if !config.entraAuthHandler then
        .error "Entra authentication requires an instance of EntraAuthHandler."
      else
        .ok .entra
    else if config.isOnPremises then
      if a.type = "ntlm" then
        if !truthyStr a.username || !truthyStr a.password then
          .error "NTLM authentication requires username and password"
        else
          .ok (.ntlm (a.username.getD "") (a.password.getD "") a.domain)
      else if a.type = "basic" then
        if !truthyStr a.username || !truthyStr a.password then
          .error "Basic authentication requires username and password"
        else
          .ok (.basic (a.username.getD "") (a.password.getD ""))
      else
        if config.personalAccessToken = "" then
          .error "PAT authentication requires a personal access token for on-premises if specified or as fallback."
        else
          .ok (.pat config.personalAccessToken)
    else
      if a.type = "pat" then
        if config.personalAccessToken = "" then
          .error "Personal Access Token is required for cloud authentication when auth type is PAT or not specified."
        else
          .ok (.pat config.personalAccessToken)
      else
        .error ("Unsupported authentication type \"" ++ a.type ++ "\" for Azure DevOps cloud.")
  | none =>
    if config.personalAccessToken = "" then
      .error "Personal Access Token is required for cloud authentication when auth type is PAT or not specified."
    else
      .ok (.pat config.personalAccessToken)

/-- `AzureDevOpsService` constructor lines 336-340: the base URL is the
organization URL, with `/<collection>` appended only when on-premises and
the collection value is truthy. -/
def computeBaseUrl (config : AzureDevOpsConfig) : String :=
  match config.collection with
  | none => config.orgUrl
  | some c =>
    if config.isOnPremises ∧ c ≠ "" then config.orgUrl ++ "/" ++ c
    else config.orgUrl

/-- `AzureDevOpsService` constructor lines 349-356: the `Accept` header is
set only on-premises with a truthy API version. -/
def computeAcceptHeader (config : AzureDevOpsConfig) : Option String :=
  if config.isOnPremises && truthyStr config.apiVersion then
    some ("application/json;api-version=" ++ config.apiVersion.getD "")
  else
    none

/-- The full `AzureDevOpsService` constructor: handler selection, base-URL
computation and request-option construction (the `new azdev.WebApi` call
itself is an external SDK constructor). -/
def mkAzureDevOpsService (config : AzureDevOpsConfig) : Except String ServiceHandle :=
  match selectAuthHandler config with
  | .error e => .error e
  | .ok h =>
    .ok { authHandler := h, baseUrl := computeBaseUrl config,
          acceptHeader := computeAcceptHeader config }

/-- One step of the regex replacement
`orgUrl.replace(/\/\/[^\/]+/, '//***')` on the character list: scan for the
leftmost `//` followed by at least one non-`/` character, replace that
match (greedy `[^\/]+`) by `//***`, and stop (the regex is not global). -/
def maskHostChars : List Char → List Char
  | [] => []
  | a :: rest =>
    match rest with
    | b :: c :: rs =>
      if a = '/' ∧ b = '/' ∧ c ≠ '/' then
        a :: b :: '*' :: '*' :: '*' :: List.dropWhile (fun x => x ≠ '/') rs
      else
        a :: maskHostChars rest
    | _ => a :: maskHostChars rest

/-- `Logger.logConnectionFailure` line 145: mask the host portion of a URL. -/
def maskHost (s : String) : String :=
  String.mk (maskHostChars s.data)

/-- The sanitized configuration record built by
`Logger.logConnectionFailure` (lines 144-153). -/
structure SanitizedConfig where
  orgUrl : String
  authType : String
  isOnPremises : Bool
  hasToken : Bool
  hasUsername : Bool
  collection : String
  apiVersion : String
  project : String
deriving DecidableEq

/-- `Logger.logConnectionFailure` lines 144-153: the sanitized context
logged on connection failure.  Secrets appear only as presence booleans. -/
def sanitizedConfigOf (config : AzureDevOpsConfig) : SanitizedConfig :=
  { orgUrl := if config.orgUrl = "" then "not provided" else maskHost config.orgUrl,
    authType := match config.auth with
      | none => "not specified"
      | some a => if a.type = "" then "not specified" else a.type,
    isOnPremises := config.isOnPremises,
    hasToken := config.personalAccessToken != "",
    hasUsername := match config.auth with
      | none => false
      | some a => truthyStr a.username,
    collection := match config.collection with
      | none => "not specified"
      | some c => if c = "" then "not specified" else c,
    apiVersion := match config.apiVersion with
      | none => "not specified"
      | some v => if v = "" then "not specified" else v,
    project := if config.project = "" then "not specified" else config.project }

/-- Replace the secret fields (personal access token, auth password) of a
configuration, leaving every other field unchanged. -/
def withSecrets (c : AzureDevOpsConfig) (tok : String) (pw : Option String) :
    AzureDevOpsConfig :=
  { c with personalAccessToken := tok,
           auth := c.auth.map (fun a => { a with password := pw }) }

/-- The `repository` member of an SDK pull request, as read by
`validatePullRequestRepository` (`id` is optional in the SDK typings). -/
structure RepositoryRef where
  id : Option String := none
deriving DecidableEq

/-- The slice of an SDK pull request that `validatePullRequestRepository`
inspects. -/
structure PullRequestRef where
  repository : Option RepositoryRef := none
deriving DecidableEq

/-- The Git API as seen by the pull-request operations: what
`gitApi.getPullRequest(repositoryId, pullRequestId, projectId)` returns
(`none` models a missing pull request). -/
structure GitApiModel where
  pullRequestAt : String → Int → String → Option PullRequestRef

/-- `src/utils/repositoryValidation.ts` `validatePullRequestRepository`:
fetch the pull request and throw when it is missing or when its repository
member is present with an `id` different from the requested repository. -/
def validatePullRequestRepository (api : GitApiModel) (repositoryId : String)
    (pullRequestId : Int) (projectId : String) : Except String Unit :=
  match api.pullRequestAt repositoryId pullRequestId projectId with
  | none =>
    .error ("Pull request " ++ toString pullRequestId ++ " not found in repository " ++ repositoryId)
  | some pr =>
    match pr.repository with
    | none => .ok ()
    | some repo =>
      if repo.id ≠ some repositoryId then
        .error ("Pull request " ++ toString pullRequestId ++ " belongs to repository " ++
          repo.id.getD "undefined" ++ ", not " ++ repositoryId)
      else
        .ok ()

/-- The SDK calls a `GitService` pull-request operation can issue, with the
arguments relevant to the claims. -/
inductive SdkCall where
  | getPR : String → Int → String → SdkCall
  | createPullRequestReviewer : Int → String → Int → String → SdkCall
  | updatePullRequest : Int → Int → Option Bool → String → Int → SdkCall
  | createComment : String → Int → Int → SdkCall
  | createThread : String → Int → SdkCall
  | getPullRequestById : Int → SdkCall
deriving DecidableEq

/-- Whether an SDK call mutates server state (vote creation, pull-request
update, comment or thread creation); retrievals are not mutating. -/
def isMutatingCall : SdkCall → Bool
  | .getPR _ _ _ => false
  | .getPullRequestById _ => false
  | _ => true

/-- `GitService.mergePullRequest` / `completePullRequest`: the string merge
strategy is converted to a number, defaulting to 1 (`noFastForward`). -/
def mergeStrategyNumber : Option String → Int
  | some "rebase" => 2
  | some "rebaseMerge" => 3
  | some "squash" => 4
  | _ => 1

/-- `GitService.approvePullRequest`: validate the repository, then cast a
+10 vote via `createPullRequestReviewer`.  The result is paired with the
trace of SDK calls issued. -/
def approvePullRequest (api : GitApiModel) (project repositoryId : String)
    (pullRequestId : Int) : Except String Unit × List SdkCall :=
  match validatePullRequestRepository api repositoryId pullRequestId project with
  | .error e => (.error e, [.getPR repositoryId pullRequestId project])
  | .ok _ =>
    (.ok (), [.getPR repositoryId pullRequestId project,
              .createPullRequestReviewer 10 repositoryId pullRequestId "me"])

/-- `GitService.mergePullRequest`: validate the repository, then update the
pull request to completed status with the selected merge strategy. -/
def mergePullRequest (api : GitApiModel) (project repositoryId : String)
    (pullRequestId : Int) (mergeStrategy : Option String) :
    Except String Unit × List SdkCall :=
  match validatePullRequestRepository api repositoryId pullRequestId project with
  | .error e => (.error e, [.getPR repositoryId pullRequestId project])
  | .ok _ =>
    (.ok (), [.getPR repositoryId pullRequestId project,
              .updatePullRequest 3 (mergeStrategyNumber mergeStrategy) none
                repositoryId pullRequestId])

/-- `GitService.addPullRequestComment`: validate the repository, then add a
comment to the (truthy) thread, or create a new thread otherwise. -/
def addPullRequestComment (api : GitApiModel) (project repositoryId : String)
    (pullRequestId : Int) (threadId : Option Int) :
    Except String Unit × List SdkCall :=
  match validatePullRequestRepository api repositoryId pullRequestId project with
  | .error e => (.error e, [.getPR repositoryId pullRequestId project])
  | .ok _ =>
    if truthyNum threadId then
      (.ok (), [.getPR repositoryId pullRequestId project,
                .createComment repositoryId pullRequestId (threadId.getD 0)])
    else
      (.ok (), [.getPR repositoryId pullRequestId project,
                .createThread repositoryId pullRequestId])

/-- `GitService.completePullRequest`: validate the repository, fetch the
pull request by id, then update it to completed status. -/
def completePullRequest (api : GitApiModel) (project repositoryId : String)
    (pullRequestId : Int) (mergeStrategy : Option String)
    (deleteSourceBranch : Option Bool) : Except String Unit × List SdkCall :=
  match validatePullRequestRepository api repositoryId pullRequestId project with
  | .error e => (.error e, [.getPR repositoryId pullRequestId project])
  | .ok _ =>
    (.ok (), [.getPR repositoryId pullRequestId project,
              .getPullRequestById pullRequestId,
              .updatePullRequest 3 (mergeStrategyNumber mergeStrategy)
                deleteSourceBranch repositoryId pullRequestId])

/-- `GitService.getPullRequestStatusText` (lines 809-817). -/
def getPullRequestStatusText (status : Int) : String :=
  if status = 0 then "notSet"
  else if status = 1 then "active"
  else if status = 2 then "abandoned"
  else if status = 3 then "completed"
  else "unknown(" ++ toString status ++ ")"

/-- `GitService.getMergeStatusText` (lines 824-834). -/
def getMergeStatusText (mergeStatus : Int) : String :=
  if mergeStatus = 1 then "conflicts"
  else if mergeStatus = 2 then "failure"
  else if mergeStatus = 3 then "notSet"
  else if mergeStatus = 4 then "queued"
  else if mergeStatus = 5 then "rejectedByPolicy"
  else if mergeStatus = 6 then "succeeded"
  else "unknown(" ++ toString mergeStatus ++ ")"

/-- The slice of an SDK pull-request response that
`GitService.getPullRequest` rewrites, plus all its remaining fields
(`rest`, returned unchanged by the object spread). -/
structure SdkPullRequest (ρ : Type) where
  status : Option Int := none
  mergeStatus : Option Int := none
  rest : ρ
deriving DecidableEq

/-- The value `GitService.getPullRequest` returns: the SDK response with
`status` and `mergeStatus` replaced by their human-readable texts. -/
structure MappedPullRequest (ρ : Type) where
  status : String
  mergeStatus : String
  rest : ρ
deriving DecidableEq

/-- `GitService.getPullRequest` lines 784-797: `Number(status ?? 0)` and
`Number(mergeStatus ?? 3)` are mapped to text; the spread keeps every other
field unchanged. -/
def gitGetPullRequest {ρ : Type} (pr : SdkPullRequest ρ) : MappedPullRequest ρ :=
  let statusNumber : Int := pr.status.getD 0
  let mergeStatusNumber : Int := pr.mergeStatus.getD 3
  { status := getPullRequestStatusText statusNumber,
    mergeStatus := getMergeStatusText mergeStatusNumber,
    rest := pr.rest }

/-- A concrete Git API used to instantiate hypothesis-bearing theorems:
repository `r1`, pull request `1`, project `proj` resolve to a pull request
whose repository member carries id `r2`; repository `r0` resolves to a pull
request with no repository member; everything else is missing. -/
def sampleGitApi : GitApiModel :=
  { pullRequestAt := fun r p j =>
      if r = "r1" ∧ p = 1 ∧ j = "proj" then
        some { repository := some { id := some "r2" } }
      else if r = "r0" ∧ p = 1 ∧ j = "proj" then
        some { repository := none }
      else
        none }

/-- The spec's on-premises example configuration (org URL
`https://ado.example.com`, collection `DefaultCollection`). -/
def onPremSampleConfig : AzureDevOpsConfig :=
  { orgUrl := "https://ado.example.com", project := "p", personalAccessToken := "t",
    isOnPremises := true, collection := some "DefaultCollection" }

/-- A cloud configuration with a collection value, to show the collection
is ignored for cloud hosting. -/
def cloudSampleConfig : AzureDevOpsConfig :=
  { orgUrl := "https://dev.azure.com/org", project := "p", personalAccessToken := "t",
    isOnPremises := false, collection := some "ignored", auth := some { type := "pat" } }

/-- An environment with an unrecognized auth type `bogus`. -/
def bogusAuthEnv : Env :=
  { AZURE_DEVOPS_ORG_URL := some "https://dev.azure.com/org",
    AZURE_DEVOPS_PROJECT := some "proj",
    AZURE_DEVOPS_PERSONAL_ACCESS_TOKEN := some "token",
    AZURE_DEVOPS_AUTH_TYPE := some "bogus" }

/-- An environment requesting entra authentication against an on-premises
server. -/
def entraOnPremEnv : Env :=
  { AZURE_DEVOPS_ORG_URL := some "https://ado.example.com",
    AZURE_DEVOPS_PROJECT := some "proj",
    AZURE_DEVOPS_AUTH_TYPE := some "entra",
    AZURE_DEVOPS_IS_ON_PREMISES := some "true" }

/-- An environment requesting ntlm authentication against the cloud
service. -/
def ntlmCloudEnv : Env :=
  { AZURE_DEVOPS_ORG_URL := some "https://dev.azure.com/org",
    AZURE_DEVOPS_PROJECT := some "proj",
    AZURE_DEVOPS_AUTH_TYPE := some "ntlm",
    AZURE_DEVOPS_USERNAME := some "user",
    AZURE_DEVOPS_PASSWORD := some "pw" }

/-- A configuration carrying the entra descriptor with on-premises hosting
(other fields fully populated). -/
def entraOnPremConfig : AzureDevOpsConfig :=
  { orgUrl := "https://ado.example.com", project := "proj",
    personalAccessToken := "tok", isOnPremises := true,
    collection := some "DefaultCollection", auth := some { type := "entra" },
    entraAuthHandler := true }

/-- A configuration carrying the ntlm descriptor with cloud hosting (other
fields fully populated). -/
def ntlmCloudConfig : AzureDevOpsConfig :=
  { orgUrl := "https://dev.azure.com/org", project := "proj",
    personalAccessToken := "tok", isOnPremises := false,
    auth := some { type := "ntlm", username := some "user", password := some "pw" } }

/-- C6: the pull-request status mapping sends 0, 1, 2, 3 to `notSet`,
`active`, `abandoned`, `completed` and every other integer to
`unknown(<value>)`; the merge-status mapping sends 1..6 to `conflicts`,
`failure`, `notSet`, `queued`, `rejectedByPolicy`, `succeeded`. -/
theorem status_mappings_exact :
    getPullRequestStatusText 0 = "notSet" ∧
    getPullRequestStatusText 1 = "active" ∧
    getPullRequestStatusText 2 = "abandoned" ∧
    getPullRequestStatusText 3 = "completed" ∧
    (∀ n : Int, n ≠ 0 → n ≠ 1 → n ≠ 2 → n ≠ 3 →
      getPullRequestStatusText n = "unknown(" ++ toString n ++ ")") ∧
    getMergeStatusText 1 = "conflicts" ∧
    getMergeStatusText 2 = "failure" ∧
    getMergeStatusText 3 = "notSet" ∧
    getMergeStatusText 4 = "queued" ∧
    getMergeStatusText 5 = "rejectedByPolicy" ∧
    getMergeStatusText 6 = "succeeded" := by
  refine ⟨by decide, by decide, by decide, by decide, ?_,
    by decide, by decide, by decide, by decide, by decide, by decide⟩
  intro n h0 h1 h2 h3
  simp [getPullRequestStatusText, h0, h1, h2, h3]

/-- Witness for C6 at the concrete unmapped value 42. -/
theorem status_mappings_exact_witness :
    getPullRequestStatusText 42 = "unknown(42)" := by
  have h := status_mappings_exact.2.2.2.2.1 42 (by decide) (by decide) (by decide) (by decide)
  exact h.trans (by decide)

/-- C10: when the SDK response has no status, `getPullRequest` reports
status `notSet` (the absent value is coerced to 0); when it has no merge
status, it reports mergeStatus `notSet` (coerced to 3); every other field
of the response is returned unchanged. -/
theorem get_pull_request_defaults {ρ : Type} :
    ∀ pr : SdkPullRequest ρ,
      (pr.status = none → (gitGetPullRequest pr).status = "notSet") ∧
      (pr.mergeStatus = none → (gitGetPullRequest pr).mergeStatus = "notSet") ∧
      (gitGetPullRequest pr).rest = pr.rest := by
  intro pr
  refine ⟨fun h => ?_, fun h => ?_, rfl⟩
  · simp [gitGetPullRequest, h, getPullRequestStatusText]
  · simp [gitGetPullRequest, h, getMergeStatusText]

/-- Witness for C10 on a concrete response with both fields absent. -/
theorem get_pull_request_defaults_witness :
    (gitGetPullRequest { status := none, mergeStatus := none, rest := "title" }).status = "notSet" ∧
    (gitGetPullRequest { status := none, mergeStatus := none, rest := "title" }).mergeStatus = "notSet" ∧
    (gitGetPullRequest { status := none, mergeStatus := none, rest := "title" }).rest = "title" :=
  have h := get_pull_request_defaults (ρ := String)
    { status := none, mergeStatus := none, rest := "title" }
  ⟨h.1 rfl, h.2.1 rfl, h.2.2⟩

/-- C9: a pull request that exists but carries no repository member passes
`validatePullRequestRepository`; an error is raised exactly when the pull
request is missing or its repository member is present with an id that is
not the requested repository id. -/
theorem validate_skips_absent_repository :
    ∀ (api : GitApiModel) (repositoryId projectId : String) (pullRequestId : Int),
      (∀ pr, api.pullRequestAt repositoryId pullRequestId projectId = some pr →
        pr.repository = none →
        validatePullRequestRepository api repositoryId pullRequestId projectId = .ok ()) ∧
      ((∃ m, validatePullRequestRepository api repositoryId pullRequestId projectId = .error m) ↔
        api.pullRequestAt repositoryId pullRequestId projectId = none ∨
        (∃ pr repo, api.pullRequestAt repositoryId pullRequestId projectId = some pr ∧
          pr.repository = some repo ∧ repo.id ≠ some repositoryId)) := by
  intro api repositoryId projectId pullRequestId
  constructor
  · intro pr hpr hrepo
    simp [validatePullRequestRepository, hpr, hrepo]
  · unfold validatePullRequestRepository
    cases hpr : api.pullRequestAt repositoryId pullRequestId projectId with
    | none => simp
    | some pr =>
      cases hrepo : pr.repository with
      | none => simp [hrepo]
      | some repo =>
        by_cases hid : repo.id = some repositoryId
        · simp [hrepo, hid]
        · simp [hrepo, hid]

/-- Witness for C9 on the concrete sample API: repository `r0` holds a pull
request with no repository member, and repository `r1` holds one whose
repository id `r2` mismatches. -/
theorem validate_skips_absent_repository_witness :
    validatePullRequestRepository sampleGitApi "r0" 1 "proj" = .ok () ∧
    (∃ m, validatePullRequestRepository sampleGitApi "r1" 1 "proj" = .error m) := by
  constructor
  · exact (validate_skips_absent_repository sampleGitApi "r0" "proj" 1).1
      { repository := none } (by decide) rfl
  · exact (validate_skips_absent_repository sampleGitApi "r1" "proj" 1).2.mpr
      (Or.inr ⟨{ repository := some { id := some "r2" } }, { id := some "r2" },
        by decide, rfl, by decide⟩)

/-- C5: the base URL used for the connection is the organization URL
unchanged for cloud hosting (whatever the collection), and the organization
URL followed by `/` and the collection for on-premises hosting with a
(truthy) collection; in particular on-premises with collection
`DefaultCollection` and org URL `https://ado.example.com` yields
`https://ado.example.com/DefaultCollection`. -/
theorem base_url_computation :
    (∀ config : AzureDevOpsConfig,
      (config.isOnPremises = false → computeBaseUrl config = config.orgUrl) ∧
      (∀ c, config.isOnPremises = true → config.collection = some c → c ≠ "" →
        computeBaseUrl config = config.orgUrl ++ "/" ++ c) ∧
      (∀ h, mkAzureDevOpsService config = .ok h → h.baseUrl = computeBaseUrl config)) ∧
    computeBaseUrl onPremSampleConfig = "https://ado.example.com/DefaultCollection" := by
  constructor
  · intro config
    refine ⟨fun hcloud => ?_, fun c honprem hcoll hne => ?_, fun h hok => ?_⟩
    · unfold computeBaseUrl
      cases config.collection with
      | none => rfl
      | some c => simp [hcloud]
    · simp [computeBaseUrl, hcoll, honprem, hne]
    · unfold mkAzureDevOpsService at hok
      cases hsel : selectAuthHandler config with
      | error e => rw [hsel] at hok; exact absurd hok (by simp)
      | ok hd => rw [hsel] at hok; cases hok; rfl
  · decide

/-- Witness for C5: the cloud sample keeps its org URL despite its
collection, and a successfully constructed service uses the computed base
URL. -/
theorem base_url_computation_witness :
    computeBaseUrl cloudSampleConfig = "https://dev.azure.com/org" ∧
    (∀ h, mkAzureDevOpsService cloudSampleConfig = .ok h →
      h.baseUrl = computeBaseUrl cloudSampleConfig) := by
  refine ⟨?_, fun h hok => (base_url_computation.1 cloudSampleConfig).2.2 h hok⟩
  exact ((base_url_computation.1 cloudSampleConfig).1 rfl).trans (by decide)

/-- C3: when the organization URL or the project is absent or empty,
configuration resolution fails with the missing-required-field error whose
message names exactly the missing variables among `AZURE_DEVOPS_ORG_URL`
and `AZURE_DEVOPS_PROJECT`, and no configuration value is produced. -/
theorem missing_required_fields :
    ∀ env : Env,
      (truthyStr env.AZURE_DEVOPS_ORG_URL = false →
        truthyStr env.AZURE_DEVOPS_PROJECT = false →
        getAzureDevOpsConfig env = .error
          (missingConfigMessage ["AZURE_DEVOPS_ORG_URL", "AZURE_DEVOPS_PROJECT"])) ∧
      (truthyStr env.AZURE_DEVOPS_ORG_URL = false →
        truthyStr env.AZURE_DEVOPS_PROJECT = true →
        getAzureDevOpsConfig env = .error (missingConfigMessage ["AZURE_DEVOPS_ORG_URL"])) ∧
      (truthyStr env.AZURE_DEVOPS_ORG_URL = true →
        truthyStr env.AZURE_DEVOPS_PROJECT = false →
        getAzureDevOpsConfig env = .error (missingConfigMessage ["AZURE_DEVOPS_PROJECT"])) := by
  intro env
  refine ⟨fun ho hp => ?_, fun ho hp => ?_, fun ho hp => ?_⟩ <;>
    simp [getAzureDevOpsConfig, resolveConfigWithAuthType, missingConfigVars, ho, hp]

/-- Witness for C3: an empty environment lacks both variables and fails
with the exact source message naming both. -/
theorem missing_required_fields_witness :
    getAzureDevOpsConfig {} = .error
      ("Missing required Azure DevOps configuration: " ++
        "AZURE_DEVOPS_ORG_URL, AZURE_DEVOPS_PROJECT" ++
        ". Please check .env file or environment variables.") := by
  have h := (missing_required_fields {}).1 rfl rfl
  exact h.trans (congrArg Except.error (by decide))

/-- C7: with `ALLOWED_TOOLS` unset, `getAllowedTools` yields the full tool
set; set to a comma-separated subset of tool names, it yields exactly that
subset as a set (duplicates collapse, order is irrelevant). -/
theorem allowed_tools_resolution :
    ∀ (allTools : List String) (env : Env) (s : String) (ts : List String),
      (env.ALLOWED_TOOLS = none → getAllowedTools allTools env = allTools.toFinset) ∧
      (env.ALLOWED_TOOLS = some s → s ≠ "" → splitComma s = ts →
        (∀ t ∈ ts, t ∈ allTools) →
        getAllowedTools allTools env = ts.toFinset) := by
  intro allTools env s ts
  constructor
  · intro h
    simp [getAllowedTools, h]
  · intro h hne hsplit _
    simp [getAllowedTools, h, hne, hsplit]

/-- Witness for C7: with tools `a`, `b` the env value `b,a,b` yields the
set of `b` and `a` — the duplicate collapses and the order is irrelevant,
so the result also equals the set of `a` followed by `b`. -/
theorem allowed_tools_resolution_witness :
    getAllowedTools ["a", "b"] {} = (["a", "b"] : List String).toFinset ∧
    getAllowedTools ["a", "b"] { ALLOWED_TOOLS := some "b,a,b" } =
      (["b", "a", "b"] : List String).toFinset ∧
    getAllowedTools ["a", "b"] { ALLOWED_TOOLS := some "b,a,b" } =
      (["a", "b"] : List String).toFinset := by
  refine ⟨(allowed_tools_resolution ["a", "b"] {} "" []).1 rfl, ?_, ?_⟩
  · exact (allowed_tools_resolution ["a", "b"] { ALLOWED_TOOLS := some "b,a,b" }
      "b,a,b" ["b", "a", "b"]).2 rfl (by decide) (by decide) (by decide)
  · have h := (allowed_tools_resolution ["a", "b"] { ALLOWED_TOOLS := some "b,a,b" }
      "b,a,b" ["b", "a", "b"]).2 rfl (by decide) (by decide) (by decide)
    exact h.trans (by decide)

/-- `resolveConfigWithAuthType` never reads the raw
`AZURE_DEVOPS_AUTH_TYPE` variable, so overwriting that variable leaves its
result unchanged. -/
theorem resolveConfig_ignores_raw_auth_type (env : Env) (v : Option String) (a : String) :
    resolveConfigWithAuthType { env with AZURE_DEVOPS_AUTH_TYPE := v } a =
      resolveConfigWithAuthType env a := by
  cases env
  rfl

/-- C4: an environment whose `AZURE_DEVOPS_AUTH_TYPE` is set to a string
outside pat, ntlm, basic, entra resolves exactly as the same environment
with auth type `pat`: the unrecognized value raises no error of its own. -/
theorem unrecognized_auth_type_defaults_to_pat :
    ∀ (env : Env) (s : String),
      env.AZURE_DEVOPS_AUTH_TYPE = some s →
      s ≠ "pat" → s ≠ "ntlm" → s ≠ "basic" → s ≠ "entra" →
      getAzureDevOpsConfig env =
        getAzureDevOpsConfig { env with AZURE_DEVOPS_AUTH_TYPE := some "pat" } := by
  intro env s hs h1 h2 h3 h4
  have hnorm : normalizeAuthType (some s) = "pat" := by
    unfold normalizeAuthType
    by_cases he : s = ""
    · simp [he]
    · simp [he, h1, h2, h3, h4]
  unfold getAzureDevOpsConfig
  rw [show ({ env with AZURE_DEVOPS_AUTH_TYPE := some "pat" } : Env).AZURE_DEVOPS_AUTH_TYPE
      = some "pat" from rfl,
    hs, hnorm, show normalizeAuthType (some "pat") = "pat" from by decide]
  exact (resolveConfig_ignores_raw_auth_type env (some "pat") "pat").symm

/-- Witness for C4: the `bogus` auth type resolves exactly as `pat` does. -/
theorem unrecognized_auth_type_defaults_to_pat_witness :
    getAzureDevOpsConfig bogusAuthEnv =
      getAzureDevOpsConfig { bogusAuthEnv with AZURE_DEVOPS_AUTH_TYPE := some "pat" } :=
  unrecognized_auth_type_defaults_to_pat bogusAuthEnv "bogus" rfl
    (by decide) (by decide) (by decide) (by decide)

/-- C2: the never-valid combinations of the decision table always fail
regardless of all other fields.  At configuration resolution, entra +
on-premises and ntlm/basic + cloud never produce a configuration, and once
the required variables are present the failure is the exact
unsupported-auth error; at service construction the same combinations fail
with the unsupported-auth error unconditionally. -/
theorem invalid_auth_hosting_combinations :
    ∀ (env : Env) (config : AzureDevOpsConfig) (a : AuthConfig),
      (env.AZURE_DEVOPS_AUTH_TYPE = some "entra" →
        env.AZURE_DEVOPS_IS_ON_PREMISES = some "true" →
        (∃ m, getAzureDevOpsConfig env = .error m) ∧
        (truthyStr env.AZURE_DEVOPS_ORG_URL = true →
          truthyStr env.AZURE_DEVOPS_PROJECT = true →
          getAzureDevOpsConfig env = .error
            "Azure Identity (DefaultAzureCredential) authentication is not supported for on-premises Azure DevOps.")) ∧
      ((env.AZURE_DEVOPS_AUTH_TYPE = some "ntlm" ∨ env.AZURE_DEVOPS_AUTH_TYPE = some "basic") →
        env.AZURE_DEVOPS_IS_ON_PREMISES ≠ some "true" →
        (∃ m, getAzureDevOpsConfig env = .error m) ∧
        (truthyStr env.AZURE_DEVOPS_ORG_URL = true →
          truthyStr env.AZURE_DEVOPS_PROJECT = true →
          ∃ t, env.AZURE_DEVOPS_AUTH_TYPE = some t ∧
            getAzureDevOpsConfig env = .error
              ("Unsupported auth type \"" ++ t ++ "\" for Azure DevOps cloud. Must be \x27pat\x27 or \x27entra\x27."))) ∧
      (config.auth = some a → a.type = "entra" → config.isOnPremises = true →
        mkAzureDevOpsService config = .error
          "Azure Identity (DefaultAzureCredential) authentication is not supported for on-premises Azure DevOps.") ∧
      (config.auth = some a → (a.type = "ntlm" ∨ a.type = "basic") →
        config.isOnPremises = false →
        mkAzureDevOpsService config = .error
          ("Unsupported authentication type \"" ++ a.type ++ "\" for Azure DevOps cloud.")) := by
  intro env config a
  refine ⟨fun hauth hon => ?_, fun hauth hcloud => ?_,
    fun hcfg htype hon => ?_, fun hcfg htype hcloud => ?_⟩
  · unfold getAzureDevOpsConfig
    rw [hauth, show normalizeAuthType (some "entra") = "entra" from by decide]
    constructor
    · cases ho : truthyStr env.AZURE_DEVOPS_ORG_URL with
      | false =>
        exact ⟨missingConfigMessage (missingConfigVars env),
          by simp [resolveConfigWithAuthType, ho]⟩
      | true =>
        cases hp : truthyStr env.AZURE_DEVOPS_PROJECT with
        | false =>
          exact ⟨missingConfigMessage (missingConfigVars env),
            by simp [resolveConfigWithAuthType, ho, hp]⟩
        | true =>
          exact ⟨"Azure Identity (DefaultAzureCredential) authentication is not supported for on-premises Azure DevOps.",
            by simp [resolveConfigWithAuthType, resolveAuth, ho, hp, hon]⟩
    · intro ho hp
      simp [resolveConfigWithAuthType, resolveAuth, ho, hp, hon]
  · have hnorm : ∃ t, env.AZURE_DEVOPS_AUTH_TYPE = some t ∧
        normalizeAuthType env.AZURE_DEVOPS_AUTH_TYPE = t ∧ t ≠ "pat" ∧ t ≠ "entra" := by
      cases hauth with
      | inl h => exact ⟨"ntlm", h, by rw [h]; decide, by decide, by decide⟩
      | inr h => exact ⟨"basic", h, by rw [h]; decide, by decide, by decide⟩
    obtain ⟨t, ht, hnt, htp, hte⟩ := hnorm
    unfold getAzureDevOpsConfig
    rw [hnt]
    constructor
    · cases ho : truthyStr env.AZURE_DEVOPS_ORG_URL with
      | false =>
        exact ⟨missingConfigMessage (missingConfigVars env),
          by simp [resolveConfigWithAuthType, ho]⟩
      | true =>
        cases hp : truthyStr env.AZURE_DEVOPS_PROJECT with
        | false =>
          exact ⟨missingConfigMessage (missingConfigVars env),
            by simp [resolveConfigWithAuthType, ho, hp]⟩
        | true =>
          exact ⟨"Unsupported auth type \"" ++ t ++ "\" for Azure DevOps cloud. Must be \x27pat\x27 or \x27entra\x27.",
            by simp [resolveConfigWithAuthType, resolveAuth, ho, hp, hcloud, htp, hte]⟩
    · intro ho hp
      exact ⟨t, ht, by simp [resolveConfigWithAuthType, resolveAuth, ho, hp, hcloud, htp, hte]⟩
  · simp [mkAzureDevOpsService, selectAuthHandler, hcfg, htype, hon]
  · have hte : a.type ≠ "entra" := by
      cases htype with
      | inl h => rw [h]; decide
      | inr h => rw [h]; decide
    have htp : a.type ≠ "pat" := by
      cases htype with
      | inl h => rw [h]; decide
      | inr h => rw [h]; decide
    simp [mkAzureDevOpsService, selectAuthHandler, hcfg, hte, htp, hcloud]

/-- Witness for C2 at the four concrete never-valid instances. -/
theorem invalid_auth_hosting_combinations_witness :
    getAzureDevOpsConfig entraOnPremEnv = .error
      "Azure Identity (DefaultAzureCredential) authentication is not supported for on-premises Azure DevOps." ∧
    (∃ m, getAzureDevOpsConfig ntlmCloudEnv = .error m) ∧
    mkAzureDevOpsService entraOnPremConfig = .error
      "Azure Identity (DefaultAzureCredential) authentication is not supported for on-premises Azure DevOps." ∧
    mkAzureDevOpsService ntlmCloudConfig = .error
      ("Unsupported authentication type \"" ++ "ntlm" ++ "\" for Azure DevOps cloud.") := by
  refine ⟨?_, ?_, ?_, ?_⟩
  · exact ((invalid_auth_hosting_combinations entraOnPremEnv entraOnPremConfig
      { type := "entra" }).1 rfl rfl).2 (by decide) (by decide)
  · exact ((invalid_auth_hosting_combinations ntlmCloudEnv ntlmCloudConfig
      { type := "ntlm", username := some "user", password := some "pw" }).2.1
      (Or.inl rfl) (by decide)).1
  · exact (invalid_auth_hosting_combinations entraOnPremEnv entraOnPremConfig
      { type := "entra" }).2.2.1 rfl rfl rfl
  · exact (invalid_auth_hosting_combinations ntlmCloudEnv ntlmCloudConfig
      { type := "ntlm", username := some "user", password := some "pw" }).2.2.2
      rfl (Or.inl rfl) rfl

/-- C1: when the pull request retrieved for validation carries a repository
id different from the requested repository id, every mutating pull-request
operation (approve, merge, add comment, complete) fails with the
repository-mismatch error and its SDK-call trace is the single retrieval —
the mutating call (vote, update, comment/thread creation) is never
reached. -/
theorem repo_mismatch_blocks_mutations :
    ∀ (api : GitApiModel) (project repositoryId : String) (pullRequestId : Int)
      (pr : PullRequestRef) (repo : RepositoryRef) (otherId : String)
      (mergeStrategy : Option String) (threadId : Option Int)
      (deleteSourceBranch : Option Bool),
      api.pullRequestAt repositoryId pullRequestId project = some pr →
      pr.repository = some repo →
      repo.id = some otherId →
      otherId ≠ repositoryId →
      (approvePullRequest api project repositoryId pullRequestId =
        (.error ("Pull request " ++ toString pullRequestId ++ " belongs to repository " ++
          otherId ++ ", not " ++ repositoryId),
         [.getPR repositoryId pullRequestId project])) ∧
      (mergePullRequest api project repositoryId pullRequestId mergeStrategy =
        (.error ("Pull request " ++ toString pullRequestId ++ " belongs to repository " ++
          otherId ++ ", not " ++ repositoryId),
         [.getPR repositoryId pullRequestId project])) ∧
      (addPullRequestComment api project repositoryId pullRequestId threadId =
        (.error ("Pull request " ++ toString pullRequestId ++ " belongs to repository " ++
          otherId ++ ", not " ++ repositoryId),
         [.getPR repositoryId pullRequestId project])) ∧
      (completePullRequest api project repositoryId pullRequestId mergeStrategy
          deleteSourceBranch =
        (.error ("Pull request " ++ toString pullRequestId ++ " belongs to repository " ++
          otherId ++ ", not " ++ repositoryId),
         [.getPR repositoryId pullRequestId project])) ∧
      isMutatingCall (.getPR repositoryId pullRequestId project) = false := by
  intro api project repositoryId pullRequestId pr repo otherId ms tid dsb hpr hrepo hid hne
  have hval : validatePullRequestRepository api repositoryId pullRequestId project =
      .error ("Pull request " ++ toString pullRequestId ++ " belongs to repository " ++
        otherId ++ ", not " ++ repositoryId) := by
    simp only [validatePullRequestRepository, hpr, hrepo, hid]
    rw [if_pos (by simpa using hne)]
    rfl
  refine ⟨?_, ?_, ?_, ?_, rfl⟩ <;>
    simp [approvePullRequest, mergePullRequest, addPullRequestComment,
      completePullRequest, hval]

/-- Witness for C1 on the concrete sample API: pull request 1 in repository
`r1` reports repository `r2`, so all four mutating operations fail with the
mismatch error and issue only the retrieval call. -/
theorem repo_mismatch_blocks_mutations_witness :
    (approvePullRequest sampleGitApi "proj" "r1" 1 =
      (.error ("Pull request " ++ toString (1 : Int) ++ " belongs to repository " ++
        "r2" ++ ", not " ++ "r1"), [.getPR "r1" 1 "proj"])) ∧
    (mergePullRequest sampleGitApi "proj" "r1" 1 (some "squash") =
      (.error ("Pull request " ++ toString (1 : Int) ++ " belongs to repository " ++
        "r2" ++ ", not " ++ "r1"), [.getPR "r1" 1 "proj"])) ∧
    (addPullRequestComment sampleGitApi "proj" "r1" 1 none =
      (.error ("Pull request " ++ toString (1 : Int) ++ " belongs to repository " ++
        "r2" ++ ", not " ++ "r1"), [.getPR "r1" 1 "proj"])) ∧
    (completePullRequest sampleGitApi "proj" "r1" 1 none (some true) =
      (.error ("Pull request " ++ toString (1 : Int) ++ " belongs to repository " ++
        "r2" ++ ", not " ++ "r1"), [.getPR "r1" 1 "proj"])) ∧
    isMutatingCall (.getPR "r1" 1 "proj") = false := by
  have h := repo_mismatch_blocks_mutations sampleGitApi "proj" "r1" 1
    { repository := some { id := some "r2" } } { id := some "r2" } "r2"
    (some "squash") none (some true) (by decide) rfl rfl (by decide)
  have h2 := repo_mismatch_blocks_mutations sampleGitApi "proj" "r1" 1
    { repository := some { id := some "r2" } } { id := some "r2" } "r2"
    none none (some true) (by decide) rfl rfl (by decide)
  exact ⟨h.1, h.2.1, h2.2.2.1, h2.2.2.2.1, h.2.2.2.2⟩

/-- Strings with equal character data are equal. -/
theorem string_ext {a b : String} (h : a.data = b.data) : a = b := by
  cases a; cases b; exact congrArg String.mk h

/-- The regex scan walks past any non-slash character unchanged. -/
theorem maskHostChars_cons_ne (a : Char) (l : List Char) (h : a ≠ '/') :
    maskHostChars (a :: l) = a :: maskHostChars l := by
  cases l with
  | nil => rfl
  | cons b t =>
    cases t with
    | nil => rfl
    | cons c rs => simp [maskHostChars, h]

/-- The regex scan walks past any slash-free prefix unchanged. -/
theorem maskHostChars_append (l rest : List Char) (h : ∀ ch ∈ l, ch ≠ '/') :
    maskHostChars (l ++ rest) = l ++ maskHostChars rest := by
  induction l with
  | nil => rfl
  | cons a t ih =>
    rw [List.cons_append, maskHostChars_cons_ne a (t ++ rest) (h a (List.mem_cons_self a t)),
      ih (fun ch hch => h ch (List.mem_cons_of_mem a hch)), List.cons_append]

/-- Dropping non-slash characters skips a slash-free prefix entirely. -/
theorem dropWhile_ne_slash_append (l rest : List Char) (h : ∀ ch ∈ l, ch ≠ '/') :
    List.dropWhile (fun x => x ≠ '/') (l ++ rest) =
      List.dropWhile (fun x => x ≠ '/') rest := by
  induction l with
  | nil => rfl
  | cons a t ih =>
    have ha : a ≠ '/' := h a (List.mem_cons_self a t)
    rw [List.cons_append, List.dropWhile_cons, if_pos (by simpa using ha)]
    exact ih (fun ch hch => h ch (List.mem_cons_of_mem a hch))

/-- Dropping non-slash characters is the identity on an empty list or one
headed by a slash. -/
theorem dropWhile_ne_slash_id (rest : List Char)
    (h : rest = [] ∨ rest.head? = some '/') :
    List.dropWhile (fun x => x ≠ '/') rest = rest := by
  cases h with
  | inl h => rw [h]; rfl
  | inr h =>
    cases rest with
    | nil => rfl
    | cons a t =>
      have ha : a = '/' := by simpa using h
      rw [List.dropWhile_cons]
      simp [ha]

/-- The host-masking replacement on a well-formed URL: a slash-free scheme
part, `//`, a non-empty slash-free host, and a remainder that is empty or
starts with `/` — the host is replaced by `***` and everything else is
kept. -/
theorem maskHost_masks_host (scheme host rest : String)
    (hs : ∀ ch ∈ scheme.data, ch ≠ '/') (hh : host ≠ "")
    (hhost : ∀ ch ∈ host.data, ch ≠ '/')
    (hr : rest = "" ∨ rest.data.head? = some '/') :
    maskHost (scheme ++ "//" ++ host ++ rest) = scheme ++ "//***" ++ rest := by
  obtain ⟨schemeData⟩ := scheme
  obtain ⟨hostData⟩ := host
  obtain ⟨restData⟩ := rest
  cases hostData with
  | nil => exact absurd (congrArg String.mk rfl) hh
  | cons c cs =>
    have hc : c ≠ '/' := hhost c (List.mem_cons_self c cs)
    have hcs : ∀ ch ∈ cs, ch ≠ '/' := fun ch hch => hhost ch (List.mem_cons_of_mem c hch)
    have hr' : restData = [] ∨ restData.head? = some '/' := by
      cases hr with
      | inl h => exact Or.inl (congrArg String.data h)
      | inr h => exact Or.inr h
    apply string_ext
    show maskHostChars ((String.mk schemeData ++ "//" ++ String.mk (c :: cs) ++
      String.mk restData)).data = _
    rw [show (String.mk schemeData ++ "//" ++ String.mk (c :: cs) ++
        String.mk restData).data = schemeData ++ ('/' :: '/' :: c :: (cs ++ restData)) from by
      simp [String.data_append]]
    rw [maskHostChars_append schemeData _ hs]
    rw [show maskHostChars ('/' :: '/' :: c :: (cs ++ restData)) =
        '/' :: '/' :: '*' :: '*' :: '*' ::
          List.dropWhile (fun x => x ≠ '/') (cs ++ restData) from by
      simp [maskHostChars, hc]]
    rw [dropWhile_ne_slash_append cs restData hcs, dropWhile_ne_slash_id restData hr']
    simp [String.data_append]

/-- C8: the sanitized context logged on connection failure masks the host
portion of the organization URL with `***`, and the personal access token
and password reach it only as presence booleans: replacing the secrets
changes no sanitized field except `hasToken`, and when the two tokens are
equally empty the sanitized configurations are identical. -/
theorem sanitized_config_secrecy :
    (∀ config : AzureDevOpsConfig, config.orgUrl ≠ "" →
      (sanitizedConfigOf config).orgUrl = maskHost config.orgUrl) ∧
    (∀ scheme host rest : String,
      (∀ ch ∈ scheme.data, ch ≠ '/') → host ≠ "" → (∀ ch ∈ host.data, ch ≠ '/') →
      (rest = "" ∨ rest.data.head? = some '/') →
      maskHost (scheme ++ "//" ++ host ++ rest) = scheme ++ "//***" ++ rest) ∧
    (∀ (c : AzureDevOpsConfig) (tok1 tok2 : String) (pw1 pw2 : Option String),
      (sanitizedConfigOf (withSecrets c tok1 pw1)).hasToken = (tok1 != "") ∧
      (sanitizedConfigOf (withSecrets c tok1 pw1)).orgUrl =
        (sanitizedConfigOf (withSecrets c tok2 pw2)).orgUrl ∧
      (sanitizedConfigOf (withSecrets c tok1 pw1)).authType =
        (sanitizedConfigOf (withSecrets c tok2 pw2)).authType ∧
      (sanitizedConfigOf (withSecrets c tok1 pw1)).isOnPremises =
        (sanitizedConfigOf (withSecrets c tok2 pw2)).isOnPremises ∧
      (sanitizedConfigOf (withSecrets c tok1 pw1)).hasUsername =
        (sanitizedConfigOf (withSecrets c tok2 pw2)).hasUsername ∧
      (sanitizedConfigOf (withSecrets c tok1 pw1)).collection =
        (sanitizedConfigOf (withSecrets c tok2 pw2)).collection ∧
      (sanitizedConfigOf (withSecrets c tok1 pw1)).apiVersion =
        (sanitizedConfigOf (withSecrets c tok2 pw2)).apiVersion ∧
      (sanitizedConfigOf (withSecrets c tok1 pw1)).project =
        (sanitizedConfigOf (withSecrets c tok2 pw2)).project ∧
      (((tok1 = "") ↔ (tok2 = "")) →
        sanitizedConfigOf (withSecrets c tok1 pw1) =
          sanitizedConfigOf (withSecrets c tok2 pw2))) := by
  refine ⟨fun config h => ?_, maskHost_masks_host, fun c tok1 tok2 pw1 pw2 => ?_⟩
  · simp [sanitizedConfigOf, h]
  · have hbool : ∀ t1 t2 : String, ((t1 = "") ↔ (t2 = "")) → (t1 != "") = (t2 != "") := by
      intro t1 t2 hiff
      by_cases h1 : t1 = ""
      · rw [h1, hiff.mp h1]
      · have h2 : ¬t2 = "" := fun h => h1 (hiff.mpr h)
        have e1 : (t1 != "") = true := by simpa using h1
        have e2 : (t2 != "") = true := by simpa using h2
        rw [e1, e2]
    refine ⟨?_, ?_, ?_, ?_, ?_, ?_, ?_, ?_, fun hiff => ?_⟩ <;>
      cases hauth : c.auth <;>
        simp [sanitizedConfigOf, withSecrets, hauth]
    · exact hbool tok1 tok2 hiff
    · exact hbool tok1 tok2 hiff

/-- Witness for C8: masking the sample cloud URL, the concrete mask
computation, and full sanitized-output agreement for two different secret
pairs. -/
theorem sanitized_config_secrecy_witness :
    (sanitizedConfigOf cloudSampleConfig).orgUrl = maskHost "https://dev.azure.com/org" ∧
    maskHost ("https:" ++ "//" ++ "dev.azure.com" ++ "/org") =
      "https:" ++ "//***" ++ "/org" ∧
    sanitizedConfigOf (withSecrets cloudSampleConfig "secret-one" (some "pw-one")) =
      sanitizedConfigOf (withSecrets cloudSampleConfig "secret-two" (some "pw-two")) := by
  refine ⟨sanitized_config_secrecy.1 cloudSampleConfig (by decide), ?_, ?_⟩
  · exact sanitized_config_secrecy.2.1 "https:" "dev.azure.com" "/org"
      (by decide) (by decide) (by decide) (Or.inr (by decide))
  · exact (sanitized_config_secrecy.2.2 cloudSampleConfig "secret-one" "secret-two"
      (some "pw-one") (some "pw-two")).2.2.2.2.2.2.2.2 (by simp)
